import Mathlib

/-!
Verification development for the meta-learner orchestration layer
(`metalearners/metalearner.py` and `metalearners/utils.py`).

Python dictionaries are embedded as association lists with Python's
insertion/update semantics (updating an existing key keeps its position,
inserting a new key appends).  Python values that flow through the
configuration channels (model classes, parameter dictionaries, feature
collections, `None`) are embedded as the inductive type `PyVal`.
Raised exceptions are embedded as `Except PyError`.
-/

set_option maxHeartbeats 1000000

abbrev Name := String

/-- Embedding of the Python values that flow through the configuration
channels of the orchestration layer: opaque objects (model classes, scalar
parameter values, feature labels), integers, strings, `None`, lists and
dictionaries. -/
inductive PyVal where
  | obj : Nat → PyVal
  | pyInt : Int → PyVal
  | str : String → PyVal
  | none : PyVal
  | list : List PyVal → PyVal
  | dict : List (Name × PyVal) → PyVal

/-- Python's `x is None` test (identity with the `None` singleton). -/
def PyVal.isNone : PyVal → Bool
  | .none => true
  | _ => false

/-- The keys of an embedded dictionary, in insertion order. -/
def keysOf {α : Type} (d : List (Name × α)) : List Name :=
  d.map Prod.fst

/-- Dictionary lookup (`d[k]`), returning `Option`. -/
def dlookup {α : Type} : List (Name × α) → Name → Option α
  | [], _ => Option.none
  | (k, v) :: rest, n => if k = n then some v else dlookup rest n

/-- Python dictionary insertion `d[k] = v`: if the key is present its value
is updated in place (the original key object and its position are kept),
otherwise the pair is appended. -/
def dictInsert {α : Type} : List (Name × α) → Name → α → List (Name × α)
  | [], k, v => [(k, v)]
  | (k0, v0) :: rest, k, v =>
    if k0 = k then (k0, v) :: rest
    else (k0, v0) :: dictInsert rest k v

/-- Python set equality `set(xs) == set(ys)`. -/
def eqAsSets {α : Type} [DecidableEq α] (xs ys : List α) : Bool :=
  xs.all (fun x => decide (x ∈ ys)) && ys.all (fun y => decide (y ∈ xs))

/-- The dictionary comprehension `{name: v for name in names}`. -/
def broadcastDict (names : List Name) (v : PyVal) : List (Name × PyVal) :=
  names.foldl (fun d n => dictInsert d n v) []

/-- Python dictionary union `d1 | d2` (right-biased). -/
def dictUnion (d1 d2 : List (Name × PyVal)) : List (Name × PyVal) :=
  d2.foldl (fun d p => dictInsert d p.1 p.2) d1

/-- Deduplication of a key list, keeping first occurrences; used to embed
Python's `set(...)` of dictionary keys (iteration order of a Python set is
arbitrary, and no property below depends on the order chosen here). -/
def dedupKeys : List Name → List Name
  | [] => []
  | n :: rest => n :: (dedupKeys rest).filter (fun m => decide ¬(m = n))

/-- The reserved name `PROPENSITY_MODEL` (`metalearner.py`, line 22). -/
def PROPENSITY_MODEL : Name := "propensity_model"

/-- Embedding of `_initialize_model_dict` (`metalearner.py`, lines 25-28):
if the argument is a dictionary whose key set equals `expected_names`,
return it itself; otherwise broadcast the argument to every expected name. -/
def initializeModelDict (argument : PyVal) (expectedNames : List Name) :
    List (Name × PyVal) :=
  match argument with
  | .dict d =>
    if eqAsSets (keysOf d) expectedNames then d
    else broadcastDict expectedNames argument
  | _ => broadcastDict expectedNames argument

/-- Embedding of `_combine_propensity_and_nuisance_specs` (`metalearner.py`,
lines 31-41). -/
def combinePropensityAndNuisanceSpecs (propensitySpecs nuisanceSpecs : PyVal)
    (nuisanceModelNames : List Name) : List (Name × PyVal) :=
  if PROPENSITY_MODEL ∈ nuisanceModelNames then
    let nonPropensityNames :=
      nuisanceModelNames.filter (fun n => decide ¬(n = PROPENSITY_MODEL))
    let nonPropensityModelDict :=
      initializeModelDict nuisanceSpecs nonPropensityNames
    dictUnion nonPropensityModelDict [(PROPENSITY_MODEL, propensitySpecs)]
  else initializeModelDict nuisanceSpecs nuisanceModelNames

/-- Whether the argument is a dictionary whose key set equals the expected
names (the branch condition of `_initialize_model_dict`). -/
def isMatchingDict (argument : PyVal) (expectedNames : List Name) : Bool :=
  match argument with
  | .dict d => eqAsSets (keysOf d) expectedNames
  | _ => false

/-! ### Data model of the meta-learner -/

/-- Embedding of the Python exceptions raised by the orchestration layer. -/
inductive PyError where
  | valueError : String → PyError
  | notImplementedError : String → PyError
  | keyError : Name → PyError
  | indexError : Nat → PyError
deriving DecidableEq

/-- Symbolic embedding of the data matrix `X` and of the pandas column
subselection `X[features]` performed by the fit/predict dispatchers. -/
inductive MatrixExpr where
  | raw : Nat → MatrixExpr
  | select : MatrixExpr → PyVal → MatrixExpr

/-- The configuration fields of a `MetaLearner` instance, exactly the
instance attributes assigned by `__init__` before the per-kind estimator
lists are allocated (`metalearner.py`, lines 194-235); this is the `self`
that the variant-declared cardinality functions observe. -/
structure Config where
  isClassification : Bool
  nVariants : Int
  nuisanceModelFactory : List (Name × PyVal)
  nuisanceModelParams : List (Name × PyVal)
  treatmentModelFactory : List (Name × PyVal)
  treatmentModelParams : List (Name × PyVal)
  nFolds : Int
  randomState : Option Int
  featureSet : Option (List (Name × PyVal))

/-- Modelled from the spec: the cross-fitting estimator collaborator
(`metalearners/cross_fit_estimator.py`, not part of the analysed sources).
Per the spec it is "constructed with (fold_count, estimator_factory,
estimator_params, random_seed)", is allocated untrained, and its `fit`
operation transitions it to (more) trained state; we record the sequence
of fit calls it has received. -/
structure CrossFitEstimator where
  nFolds : Int
  estimatorFactory : PyVal
  estimatorParams : PyVal
  randomState : Option Int
  fitCalls : List (MatrixExpr × Nat × Option PyVal)

/-- Modelled from the spec: `CrossFitEstimator.fit(X, y, fit_params)`
transitions the estimator to (more) trained state; embedded by recording
the call.  The targeting vector `y` is embedded as an opaque identifier. -/
def CrossFitEstimator.fit (e : CrossFitEstimator) (X : MatrixExpr) (y : Nat)
    (fitParams : Option PyVal) : CrossFitEstimator :=
  { e with fitCalls := e.fitCalls ++ [(X, y, fitParams)] }

/-- A concrete meta-learner variant: its nuisance and treatment
model-specification registries (kind name to cardinality function; the
prediction-method component of `_ModelSpecifications` plays no role in the
verified operations and is omitted), its capability flags, and the outcomes
of the two variant-supplied validation hooks `_validate_params` (a no-op in
the base class) and `_validate_models` (abstract), abstracted as success
flags since their bodies live in the concrete variant classes, outside the
analysed sources. -/
structure Variant where
  nuisanceSpecs : List (Name × (Config → Nat))
  treatmentSpecs : List (Name × (Config → Nat))
  supportsMultiTreatment : Bool
  supportsMultiClass : Bool
  validateParamsOk : Bool
  validateModelsOk : Bool

/-- A constructed meta-learner: its variant (class), its configuration
attributes, and the two per-kind estimator-list mappings
`_nuisance_models` and `_treatment_models`. -/
structure MetaLearner where
  variant : Variant
  config : Config
  nuisanceModels : List (Name × List CrossFitEstimator)
  treatmentModels : List (Name × List CrossFitEstimator)

/-- Embedding of `MetaLearner._check_n_variants` (`metalearner.py`, lines
72-82).  `n_variants` arrives as an arbitrary Python value; the
`isinstance(n_variants, int)` test succeeds exactly on the integer
embedding. -/
def checkNVariants (V : Variant) (nVariants : PyVal) : Except PyError Unit :=
  match nVariants with
  | .pyInt n =>
    if n < 2 then
      .error (.valueError
        "n_variants needs to be an integer strictly greater than 1.")
    else if n > 2 ∧ V.supportsMultiTreatment = false then
      .error (.notImplementedError
        "Current implementation only supports binary treatment variants.")
    else .ok ()
  | _ =>
    .error (.valueError
      "n_variants needs to be an integer strictly greater than 1.")

/-- Extraction of the integer payload after `_check_n_variants` has
succeeded (at which point the value is known to be an integer). -/
def pyToInt : PyVal → Int
  | .pyInt n => n
  | _ => 0

/-- Whether the argument is a dictionary containing the given key
(`isinstance(a, dict) and k in a.keys()`). -/
def dictHasKey (v : PyVal) (k : Name) : Bool :=
  match v with
  | .dict d => decide (k ∈ keysOf d)
  | _ => false

/-- The configuration attributes assigned by `__init__` (`metalearner.py`,
lines 194-235): propensity-aware normalization of the nuisance factory and
params, plain normalization of the treatment factory and params, and
normalization of the feature set over the union of all declared kind
names (or `None` when no feature set was supplied). -/
def mkConfig (V : Variant) (nuisanceModelFactory : PyVal)
    (isClassification : Bool) (nVariants : PyVal)
    (treatmentModelFactory propensityModelFactory : PyVal)
    (nuisanceModelParams treatmentModelParams propensityModelParams : PyVal)
    (featureSet : PyVal) (nFolds : Int) (randomState : Option Int) : Config :=
  let nuisanceKeys := dedupKeys (keysOf V.nuisanceSpecs)
  let treatmentKeys := dedupKeys (keysOf V.treatmentSpecs)
  let nuisanceParams1 :=
    if nuisanceModelParams.isNone then PyVal.dict [] else nuisanceModelParams
  let propensityParams1 :=
    if propensityModelParams.isNone then PyVal.dict [] else propensityModelParams
  { isClassification := isClassification
    nVariants := pyToInt nVariants
    nuisanceModelFactory := combinePropensityAndNuisanceSpecs
      propensityModelFactory nuisanceModelFactory nuisanceKeys
    nuisanceModelParams := combinePropensityAndNuisanceSpecs
      propensityParams1 nuisanceParams1 nuisanceKeys
    treatmentModelFactory := initializeModelDict treatmentModelFactory treatmentKeys
    treatmentModelParams :=
      if treatmentModelParams.isNone then
        initializeModelDict (PyVal.dict []) treatmentKeys
      else
        initializeModelDict treatmentModelParams treatmentKeys
    nFolds := nFolds
    randomState := randomState
    featureSet :=
      if featureSet.isNone then Option.none
      else some (initializeModelDict featureSet
        (dedupKeys (nuisanceKeys ++ treatmentKeys))) }

/-- The per-kind estimator-list allocation (`metalearner.py`, lines
237-262): for every declared kind, `cardinality(self)` fresh
`CrossFitEstimator` instances configured with the kind's normalized
factory and params, the fold count and the random seed. -/
def buildModels (specs : List (Name × (Config → Nat)))
    (factory params : List (Name × PyVal)) (nFolds : Int)
    (randomState : Option Int) (cfg : Config) :
    List (Name × List CrossFitEstimator) :=
  (dedupKeys (keysOf specs)).map (fun name =>
    (name, (List.range (((dlookup specs name).getD (fun _ => 0)) cfg)).map
      (fun _ =>
        { nFolds := nFolds
          estimatorFactory := (dlookup factory name).getD PyVal.none
          estimatorParams := (dlookup params name).getD PyVal.none
          randomState := randomState
          fitCalls := [] })))

/-- The name scope over which a nuisance-channel argument is broadcast by
the constructor: the non-propensity nuisance kind names when the variant
declares a propensity kind, and all nuisance kind names otherwise (the two
branches of `_combine_propensity_and_nuisance_specs`). -/
def nuisanceBroadcastScope (V : Variant) : List Name :=
  let keys := dedupKeys (keysOf V.nuisanceSpecs)
  if PROPENSITY_MODEL ∈ keys then
    keys.filter (fun n => decide ¬(n = PROPENSITY_MODEL))
  else keys

/-- The successfully constructed meta-learner (the state assembled by
`__init__` when none of its checks raises). -/
def assembleLearner (V : Variant) (nuisanceModelFactory : PyVal)
    (isClassification : Bool) (nVariants : PyVal)
    (treatmentModelFactory propensityModelFactory : PyVal)
    (nuisanceModelParams treatmentModelParams propensityModelParams : PyVal)
    (featureSet : PyVal) (nFolds : Int) (randomState : Option Int) :
    MetaLearner :=
  let cfg := mkConfig V nuisanceModelFactory isClassification nVariants
    treatmentModelFactory propensityModelFactory nuisanceModelParams
    treatmentModelParams propensityModelParams featureSet nFolds randomState
  { variant := V
    config := cfg
    nuisanceModels := buildModels V.nuisanceSpecs cfg.nuisanceModelFactory
      cfg.nuisanceModelParams nFolds randomState cfg
    treatmentModels := buildModels V.treatmentSpecs cfg.treatmentModelFactory
      cfg.treatmentModelParams nFolds randomState cfg }

/-- Embedding of `MetaLearner.__init__` (`metalearner.py`, lines 114-264).
The error checks of the source appear in source order; the configuration
assignments of lines 194-235 are pure and total, so the fold-count
positivity check of line 224 (`validate_number_positive`, modelled from the
spec: "validate fold count is a positive number", raising a configuration
error otherwise, its body living in `metalearners/_utils.py` outside the
analysed sources) commutes with them and is placed after the assembled
configuration. -/
def mkMetaLearner (V : Variant) (nuisanceModelFactory : PyVal)
    (isClassification : Bool) (nVariants : PyVal)
    (treatmentModelFactory propensityModelFactory : PyVal)
    (nuisanceModelParams treatmentModelParams propensityModelParams : PyVal)
    (featureSet : PyVal) (nFolds : Int) (randomState : Option Int) :
    Except PyError MetaLearner :=
  if V.validateParamsOk = false then
    .error (.valueError "_validate_params rejected the configuration.")
  else if PROPENSITY_MODEL ∈ keysOf V.treatmentSpecs then
    .error (.valueError "propensity_model can't be used as a treatment model name")
  else if dictHasKey nuisanceModelFactory PROPENSITY_MODEL then
    .error (.valueError
      "Propensity model factory should be defined using propensity_model_factory and not nuisance_model_factory.")
  else if dictHasKey nuisanceModelParams PROPENSITY_MODEL then
    .error (.valueError
      "Propensity model params should be defined using propensity_model_params and not nuisance_model_params.")
  else if PROPENSITY_MODEL ∈ keysOf V.nuisanceSpecs ∧
      propensityModelFactory.isNone then
    .error (.valueError
      "propensity_model_factory needs to be defined as the MetaLearner has a propensity model.")
  else
    match checkNVariants V nVariants with
    | .error e => .error e
    | .ok _ =>
      if nFolds ≤ 0 then
        .error (.valueError "n_folds must be positive.")
      else if V.validateModelsOk = false then
        .error (.valueError "_validate_models rejected the models.")
      else
        .ok (assembleLearner V nuisanceModelFactory isClassification
          nVariants treatmentModelFactory propensityModelFactory
          nuisanceModelParams treatmentModelParams propensityModelParams
          featureSet nFolds randomState)

/-- Embedding of `MetaLearner._check_treatment` (`metalearner.py`, lines
84-96).  `np.unique(w)` contributes its count of distinct values and its
value set; both checks of the source are kept in order. -/
def MetaLearner.checkTreatment (ml : MetaLearner) (w : List Int) :
    Except PyError Unit :=
  if (w.dedup.length : Int) ≠ ml.config.nVariants then
    .error (.valueError
      "Number of variants present in the treatment are different than the number specified at instantiation.")
  else if eqAsSets w.dedup
      ((List.range ml.config.nVariants.toNat).map Int.ofNat) = false then
    .error (.valueError
      "Treatment variant should be encoded with values 0 to n_variants - 1 and all variants should be present.")
  else .ok ()

/-- Embedding of `MetaLearner._check_outcome` (`metalearner.py`, lines
98-107). -/
def MetaLearner.checkOutcome (ml : MetaLearner) (y : List Int) :
    Except PyError Unit :=
  if ml.config.isClassification = true ∧
      ml.variant.supportsMultiClass = false ∧ 2 < y.dedup.length then
    .error (.valueError "This MetaLearner does not support multiclass classification.")
  else .ok ()

/-- Python truthiness of `self.feature_set` (`if self.feature_set`): true
exactly when the attribute is a non-empty dictionary, false when it is
`None` or empty. -/
def featureSetTruthy : Option (List (Name × PyVal)) → Bool
  | some d => !d.isEmpty
  | Option.none => false

/-- The column subselection performed by the fit/predict dispatchers
(`X[self.feature_set[model_kind]] if self.feature_set else X`); a missing
kind key raises `KeyError`. -/
def filterX (featureSet : Option (List (Name × PyVal))) (X : MatrixExpr)
    (modelKind : Name) : Except PyError MatrixExpr :=
  if featureSetTruthy featureSet then
    match dlookup (featureSet.getD []) modelKind with
    | some features => .ok (.select X features)
    | Option.none => .error (.keyError modelKind)
  else .ok X

/-- In-place replacement of the `(kind, ordinal)` estimator inside a
per-kind model mapping (the functional image of mutating the estimator
object held at that position). -/
def updateModels : List (Name × List CrossFitEstimator) → Name → Nat →
    CrossFitEstimator → List (Name × List CrossFitEstimator)
  | [], _, _, _ => []
  | (k0, l0) :: rest, k, o, e =>
    if k0 = k then (k0, l0.set o e) :: rest
    else (k0, l0) :: updateModels rest k o e

/-- Embedding of `MetaLearner.fit_nuisance` (`metalearner.py`, lines
295-311): subset `X` to the kind's feature set (if any), delegate to the
`(kind, ordinal)` estimator's fit, return the (updated) meta-learner
itself.  Missing kinds or out-of-range ordinals raise, as the Python
subscript operations would. -/
def MetaLearner.fitNuisance (ml : MetaLearner) (X : MatrixExpr) (y : Nat)
    (modelKind : Name) (modelOrd : Nat) (fitParams : Option PyVal) :
    Except PyError MetaLearner :=
  match filterX ml.config.featureSet X modelKind with
  | .error e => .error e
  | .ok Xfiltered =>
    match dlookup ml.nuisanceModels modelKind with
    | Option.none => .error (.keyError modelKind)
    | some models =>
      match models[modelOrd]? with
      | Option.none => .error (.indexError modelOrd)
      | some est =>
        .ok { ml with nuisanceModels := (updateModels ml.nuisanceModels
                modelKind modelOrd (est.fit Xfiltered y fitParams)) }

/-- Embedding of `MetaLearner.fit_treatment` (`metalearner.py`, lines
313-329), the treatment-mapping counterpart of `fit_nuisance`. -/
def MetaLearner.fitTreatment (ml : MetaLearner) (X : MatrixExpr) (y : Nat)
    (modelKind : Name) (modelOrd : Nat) (fitParams : Option PyVal) :
    Except PyError MetaLearner :=
  match filterX ml.config.featureSet X modelKind with
  | .error e => .error e
  | .ok Xfiltered =>
    match dlookup ml.treatmentModels modelKind with
    | Option.none => .error (.keyError modelKind)
    | some models =>
      match models[modelOrd]? with
      | Option.none => .error (.indexError modelOrd)
      | some est =>
        .ok { ml with treatmentModels := (updateModels ml.treatmentModels
                modelKind modelOrd (est.fit Xfiltered y fitParams)) }

/-- The five concrete meta-learner variant classes returned by the factory
(their modules `slearner.py`, `tlearner.py`, `xlearner.py`, `rlearner.py`,
`drlearner.py` are outside the analysed sources; each class is embedded as
an opaque distinct tag). -/
inductive MetaLearnerClass where
  | SLearner
  | TLearner
  | XLearner
  | RLearner
  | DRLearner
deriving DecidableEq

/-- Embedding of `metalearner_factory` (`utils.py`, lines 12-37): exact
string dispatch, in source order, over the five codes; any other code
raises a `ValueError` naming the unrecognized code. -/
def metalearnerFactory (code : String) : Except PyError MetaLearnerClass :=
  if code = "T" then .ok .TLearner
  else if code = "S" then .ok .SLearner
  else if code = "X" then .ok .XLearner
  else if code = "R" then .ok .RLearner
  else if code = "DR" then .ok .DRLearner
  else .error (.valueError
    ("No MetaLearner implementation found for prefix " ++ code ++ "."))

/-! ### Concrete fixtures used by the witnesses -/

/-- A cardinality function declaring one estimator per treatment variant. -/
def perVariantCardinality : Config → Nat := fun cfg => cfg.nVariants.toNat

/-- A cardinality function declaring a single estimator. -/
def constCardinality : Config → Nat := fun _ => 1

/-- A demo variant declaring a propensity nuisance model, an outcome
nuisance model and a per-variant treatment model, with both capability
flags set and succeeding validation hooks. -/
def demoVariant : Variant :=
  { nuisanceSpecs := [("outcome_model", constCardinality),
      ("propensity_model", constCardinality)]
    treatmentSpecs := [("treatment_effect_model", perVariantCardinality)]
    supportsMultiTreatment := true
    supportsMultiClass := true
    validateParamsOk := true
    validateModelsOk := true }

/-- A demo binary-treatment, binary-class variant without a propensity
model. -/
def demoBinaryVariant : Variant :=
  { nuisanceSpecs := [("mu", constCardinality)]
    treatmentSpecs := []
    supportsMultiTreatment := false
    supportsMultiClass := false
    validateParamsOk := true
    validateModelsOk := true }

/-- A demo regression (non-classification) configuration with two
treatment variants. -/
def demoConfig : Config :=
  { isClassification := false
    nVariants := 2
    nuisanceModelFactory := []
    nuisanceModelParams := []
    treatmentModelFactory := []
    treatmentModelParams := []
    nFolds := 10
    randomState := Option.none
    featureSet := Option.none }

/-- A demo meta-learner instance over `demoBinaryVariant` and
`demoConfig`, used to exercise the validation hooks. -/
def demoPlainLearner : MetaLearner :=
  { variant := demoBinaryVariant
    config := demoConfig
    nuisanceModels := []
    treatmentModels := [] }

/-- The meta-learner produced by a successful demo construction over
`demoVariant` (scalar factories and params, no feature set). -/
def demoLearner : MetaLearner :=
  match mkMetaLearner demoVariant (PyVal.obj 1) false (PyVal.pyInt 2)
      (PyVal.obj 2) (PyVal.obj 3) PyVal.none PyVal.none PyVal.none
      PyVal.none 10 Option.none with
  | .ok ml => ml
  | .error _ => demoPlainLearner

/-! ### Basic dictionary lemmas -/

theorem dlookup_dictInsert {α : Type} (d : List (Name × α)) (k : Name) (v : α)
    (n : Name) :
    dlookup (dictInsert d k v) n = if n = k then some v else dlookup d n := by
  induction d with
  | nil =>
    simp only [dictInsert, dlookup]
    by_cases h : k = n
    · subst h
      simp
    · have h2 : ¬ n = k := fun hh => h hh.symm
      simp [h, h2]
  | cons p rest ih =>
    obtain ⟨k0, v0⟩ := p
    by_cases h0 : k0 = k
    · subst h0
      simp only [dictInsert, if_pos rfl, dlookup]
      by_cases hn : k0 = n
      · subst hn
        simp
      · have h2 : ¬ n = k0 := fun hh => hn hh.symm
        simp [hn, h2]
    · simp only [dictInsert, if_neg h0, dlookup, ih]
      by_cases hn : k0 = n
      · have h2 : ¬ n = k := fun hh => h0 (hn.trans hh)
        simp [hn, h2]
      · simp [hn]

theorem dlookup_foldl_broadcast (names : List Name) (v : PyVal)
    (acc : List (Name × PyVal)) (n : Name) :
    dlookup (names.foldl (fun d m => dictInsert d m v) acc) n =
      if n ∈ names then some v else dlookup acc n := by
  induction names generalizing acc with
  | nil => simp
  | cons m rest ih =>
    simp only [List.foldl_cons, ih, dlookup_dictInsert, List.mem_cons]
    by_cases hrest : n ∈ rest
    · simp [hrest]
    · by_cases hm : n = m
      · simp [hm, hrest]
      · simp [hm, hrest]

theorem dlookup_broadcastDict (names : List Name) (v : PyVal) (n : Name) :
    dlookup (broadcastDict names v) n =
      if n ∈ names then some v else Option.none := by
  unfold broadcastDict
  rw [dlookup_foldl_broadcast]
  rfl

theorem mem_keysOf_iff_isSome {α : Type} (d : List (Name × α)) (n : Name) :
    n ∈ keysOf d ↔ (dlookup d n).isSome := by
  induction d with
  | nil => simp [keysOf, dlookup]
  | cons p rest ih =>
    obtain ⟨k, v⟩ := p
    simp only [keysOf, List.map_cons, List.mem_cons, dlookup]
    by_cases h : k = n
    · simp [h]
    · have : ¬ n = k := fun hh => h hh.symm
      simp only [if_neg h, this, false_or]
      simpa [keysOf] using ih

theorem eqAsSets_iff {α : Type} [DecidableEq α] (xs ys : List α) :
    eqAsSets xs ys = true ↔ (∀ a, a ∈ xs ↔ a ∈ ys) := by
  simp only [eqAsSets, Bool.and_eq_true, List.all_eq_true, decide_eq_true_eq]
  constructor
  · rintro ⟨h1, h2⟩ a
    exact ⟨fun ha => h1 a ha, fun ha => h2 a ha⟩
  · intro h
    exact ⟨fun a ha => (h a).mp ha, fun a ha => (h a).mpr ha⟩

theorem mem_dedupKeys (l : List Name) (n : Name) :
    n ∈ dedupKeys l ↔ n ∈ l := by
  induction l with
  | nil => simp [dedupKeys]
  | cons m rest ih =>
    simp only [dedupKeys, List.mem_cons, List.mem_filter, decide_eq_true_eq]
    constructor
    · rintro (h | ⟨h, _⟩)
      · exact Or.inl h
      · exact Or.inr (ih.mp h)
    · rintro (h | h)
      · exact Or.inl h
      · by_cases hm : n = m
        · exact Or.inl hm
        · exact Or.inr ⟨ih.mpr h, hm⟩

/-! ### Lemmas about the model-dict normalizer -/

theorem initializeModelDict_of_matching (d : List (Name × PyVal))
    (names : List Name) (h : eqAsSets (keysOf d) names = true) :
    initializeModelDict (.dict d) names = d := by
  simp [initializeModelDict, h]

theorem initializeModelDict_of_not_matching (argument : PyVal)
    (names : List Name) (h : isMatchingDict argument names = false) :
    initializeModelDict argument names = broadcastDict names argument := by
  cases argument <;> simp_all [initializeModelDict, isMatchingDict]

theorem keysOf_initializeModelDict (argument : PyVal) (names : List Name)
    (n : Name) :
    n ∈ keysOf (initializeModelDict argument names) ↔ n ∈ names := by
  by_cases h : isMatchingDict argument names = true
  · match argument, h with
    | .dict d, h =>
      rw [initializeModelDict_of_matching d names h]
      exact (eqAsSets_iff _ _).mp h n
  · rw [initializeModelDict_of_not_matching argument names
      (Bool.not_eq_true _ ▸ h)]
    rw [mem_keysOf_iff_isSome, dlookup_broadcastDict]
    by_cases hn : n ∈ names <;> simp [hn]

/-! ### Claims about the pure helpers -/

/-- C1: For every input pair `(value, expected_names)`, the model-dict
normalizer returns a mapping whose key set equals `expected_names` exactly;
when the value is a mapping whose key set already equals `expected_names`
the very same mapping is returned (identity of the Python object is
embedded as the definition returning the argument term itself), otherwise a
new mapping assigns the value itself to every expected name; an empty
`expected_names` yields an empty mapping.  The embedded function is total,
so the helper never raises. -/
theorem claim_C1_model_dict_normalizer (value : PyVal)
    (expectedNames : List Name) :
    (∀ n, n ∈ keysOf (initializeModelDict value expectedNames) ↔
        n ∈ expectedNames)
    ∧ (∀ d, value = PyVal.dict d → eqAsSets (keysOf d) expectedNames = true →
        initializeModelDict value expectedNames = d)
    ∧ (isMatchingDict value expectedNames = false →
        ∀ n ∈ expectedNames,
          dlookup (initializeModelDict value expectedNames) n = some value)
    ∧ (expectedNames = [] → initializeModelDict value expectedNames = []) := by
  refine ⟨keysOf_initializeModelDict value expectedNames, ?_, ?_, ?_⟩
  · intro d hd hmatch
    subst hd
    exact initializeModelDict_of_matching d expectedNames hmatch
  · intro hnm n hn
    rw [initializeModelDict_of_not_matching value expectedNames hnm,
      dlookup_broadcastDict]
    simp [hn]
  · intro h
    subst h
    match value with
    | .dict d =>
      by_cases hm : eqAsSets (keysOf d) [] = true
      · rw [initializeModelDict_of_matching d [] hm]
        have hall := (eqAsSets_iff (keysOf d) []).mp hm
        cases d with
        | nil => rfl
        | cons p rest =>
          exact absurd ((hall p.1).mp (by simp [keysOf])) (by simp)
      · rw [initializeModelDict_of_not_matching _ _
          (by simp [isMatchingDict, hm])]
        rfl
    | .obj k => rfl
    | .pyInt k => rfl
    | .str s => rfl
    | .none => rfl
    | .list l => rfl

/-- Witness for C1 at concrete inputs: a matching dictionary is returned
itself, a scalar is broadcast, and empty expected names yield an empty
mapping. -/
theorem claim_C1_witness :
    initializeModelDict (PyVal.dict [("a", PyVal.obj 0)]) ["a"] =
      [("a", PyVal.obj 0)]
    ∧ dlookup (initializeModelDict (PyVal.obj 7) ["a", "b"]) "a" =
      some (PyVal.obj 7)
    ∧ initializeModelDict (PyVal.obj 7) [] = [] := by
  refine ⟨?_, ?_, ?_⟩
  · exact (claim_C1_model_dict_normalizer
      (PyVal.dict [("a", PyVal.obj 0)]) ["a"]).2.1 _ rfl (by decide)
  · exact (claim_C1_model_dict_normalizer (PyVal.obj 7) ["a", "b"]).2.2.1
      (by decide) "a" (by decide)
  · exact (claim_C1_model_dict_normalizer (PyVal.obj 7) []).2.2.2 rfl

/-- C2: when the reserved propensity name is among the nuisance kind names,
the merge helper maps the propensity name to the supplied propensity value
unconditionally (for every value, including the embedded `None`), maps
every other name as the normalization of the remaining non-propensity
names does, and its key set is exactly the nuisance kind-name set; when
the propensity name is not a member, the result is exactly the plain
normalization of the full name set, so the propensity value is ignored. -/
theorem claim_C2_propensity_merge (propensityValue nuisanceValue : PyVal)
    (nuisanceKindNames : List Name) :
    (PROPENSITY_MODEL ∈ nuisanceKindNames →
      dlookup (combinePropensityAndNuisanceSpecs propensityValue
          nuisanceValue nuisanceKindNames) PROPENSITY_MODEL =
        some propensityValue
      ∧ (∀ n, ¬(n = PROPENSITY_MODEL) →
          dlookup (combinePropensityAndNuisanceSpecs propensityValue
              nuisanceValue nuisanceKindNames) n =
            dlookup (initializeModelDict nuisanceValue
              (nuisanceKindNames.filter
                (fun m => decide ¬(m = PROPENSITY_MODEL)))) n)
      ∧ (∀ n, n ∈ keysOf (combinePropensityAndNuisanceSpecs propensityValue
            nuisanceValue nuisanceKindNames) ↔ n ∈ nuisanceKindNames))
    ∧ (PROPENSITY_MODEL ∉ nuisanceKindNames →
      combinePropensityAndNuisanceSpecs propensityValue nuisanceValue
          nuisanceKindNames =
        initializeModelDict nuisanceValue nuisanceKindNames) := by
  constructor
  · intro hmem
    have hcombine : combinePropensityAndNuisanceSpecs propensityValue
        nuisanceValue nuisanceKindNames =
        dictInsert (initializeModelDict nuisanceValue
          (nuisanceKindNames.filter (fun m => decide ¬(m = PROPENSITY_MODEL))))
          PROPENSITY_MODEL propensityValue := by
      simp only [combinePropensityAndNuisanceSpecs, if_pos hmem]
      rfl
    refine ⟨?_, ?_, ?_⟩
    · rw [hcombine, dlookup_dictInsert]
      simp
    · intro n hn
      rw [hcombine, dlookup_dictInsert, if_neg hn]
    · intro n
      rw [hcombine, mem_keysOf_iff_isSome, dlookup_dictInsert]
      by_cases hn : n = PROPENSITY_MODEL
      · subst hn
        simp [hmem]
      · rw [if_neg hn, ← mem_keysOf_iff_isSome, keysOf_initializeModelDict,
          List.mem_filter]
        simp [hn]
  · intro hmem
    simp only [combinePropensityAndNuisanceSpecs, if_neg hmem]

/-- Witness for C2 at concrete inputs: with the propensity name present the
merge maps it to the supplied value (here the embedded `None`), the other
name to the broadcast nuisance value, and without it the propensity value
is ignored. -/
theorem claim_C2_witness :
    dlookup (combinePropensityAndNuisanceSpecs PyVal.none (PyVal.obj 3)
        ["mu", "propensity_model"]) "propensity_model" = some PyVal.none
    ∧ dlookup (combinePropensityAndNuisanceSpecs PyVal.none (PyVal.obj 3)
        ["mu", "propensity_model"]) "mu" =
      dlookup (initializeModelDict (PyVal.obj 3)
        (["mu", "propensity_model"].filter
          (fun m => decide ¬(m = PROPENSITY_MODEL)))) "mu"
    ∧ combinePropensityAndNuisanceSpecs (PyVal.obj 9) (PyVal.obj 3) ["mu"] =
      initializeModelDict (PyVal.obj 3) ["mu"] := by
  refine ⟨?_, ?_, ?_⟩
  · exact ((claim_C2_propensity_merge PyVal.none (PyVal.obj 3)
      ["mu", "propensity_model"]).1 (by decide)).1
  · exact ((claim_C2_propensity_merge PyVal.none (PyVal.obj 3)
      ["mu", "propensity_model"]).1 (by decide)).2.1 "mu" (by decide)
  · exact (claim_C2_propensity_merge (PyVal.obj 9) (PyVal.obj 3) ["mu"]).2
      (by decide)

/-! ### Claims about the runtime validation hooks and the factory -/

theorem mem_range_map_ofNat (m : Nat) (x : Int) :
    x ∈ (List.range m).map Int.ofNat ↔ 0 ≤ x ∧ x < (m : Int) := by
  simp only [List.mem_map, List.mem_range, Int.ofNat_eq_natCast]
  constructor
  · rintro ⟨i, hi, rfl⟩
    omega
  · rintro ⟨h0, hm⟩
    exact ⟨x.toNat, by omega, by omega⟩

theorem except_unit_ok {r : Except PyError Unit}
    (h : ¬ ∃ e, r = .error e) : r = .ok () := by
  match r with
  | .ok u => rfl
  | .error e => exact absurd ⟨e, rfl⟩ h

theorem checkTreatment_error_iff (ml : MetaLearner) (w : List Int)
    (hn : 0 ≤ ml.config.nVariants) :
    (∃ e, ml.checkTreatment w = .error e) ↔
      ¬ (∀ x : Int, x ∈ w ↔ (0 ≤ x ∧ x < ml.config.nVariants)) := by
  unfold MetaLearner.checkTreatment
  have hnodupR : ((List.range ml.config.nVariants.toNat).map Int.ofNat).Nodup :=
    List.Nodup.map (fun a b h => Int.ofNat.inj h) (List.nodup_range _)
  have hmr : ∀ x : Int,
      (x ∈ (List.range ml.config.nVariants.toNat).map Int.ofNat ↔
        (0 ≤ x ∧ x < ml.config.nVariants)) := by
    intro x
    rw [mem_range_map_ofNat]
    omega
  constructor
  · rintro ⟨e, he⟩ hall
    have hsets : ∀ x : Int, x ∈ w.dedup ↔
        x ∈ (List.range ml.config.nVariants.toNat).map Int.ofNat := by
      intro x
      rw [List.mem_dedup]
      exact (hall x).trans (hmr x).symm
    have hperm := (List.perm_ext_iff_of_nodup (List.nodup_dedup w)
      hnodupR).mpr hsets
    have hlen : w.dedup.length = ml.config.nVariants.toNat := by
      have := hperm.length_eq
      simpa using this
    rw [if_neg (by omega)] at he
    rw [if_neg (by simp [(eqAsSets_iff w.dedup _).mpr hsets])] at he
    exact Except.noConfusion he
  · intro hnot
    by_cases h1 : (w.dedup.length : Int) ≠ ml.config.nVariants
    · exact ⟨_, by rw [if_pos h1]⟩
    · push_neg at h1
      by_cases h2 : eqAsSets w.dedup
          ((List.range ml.config.nVariants.toNat).map Int.ofNat) = false
      · exact ⟨_, by rw [if_neg (by omega), if_pos h2]⟩
      · exfalso
        apply hnot
        intro x
        have h2t : eqAsSets w.dedup
            ((List.range ml.config.nVariants.toNat).map Int.ofNat) = true := by
          revert h2
          cases eqAsSets w.dedup
            ((List.range ml.config.nVariants.toNat).map Int.ofNat) <;> simp
        have := (eqAsSets_iff _ _).mp h2t x
        rw [List.mem_dedup] at this
        exact this.trans (hmr x)

/-- C5: on every instance with a valid variant count, treatment-vector
validation raises exactly when the set of distinct values in `w` differs
from `{0, ..., n_variants - 1}`; in particular, with `n_variants = 2`,
`[0,0,1,1]` passes while `[0,1,2]` and `[1,1,1]` raise. -/
theorem claim_C5_treatment_validation (ml : MetaLearner) (w : List Int)
    (hn : 2 ≤ ml.config.nVariants) :
    ((∃ e, ml.checkTreatment w = .error e) ↔
      ¬ (∀ x : Int, x ∈ w ↔ (0 ≤ x ∧ x < ml.config.nVariants)))
    ∧ (ml.config.nVariants = 2 →
        ml.checkTreatment [0, 0, 1, 1] = .ok ()
        ∧ (∃ e, ml.checkTreatment [0, 1, 2] = .error e)
        ∧ (∃ e, ml.checkTreatment [1, 1, 1] = .error e)) := by
  refine ⟨checkTreatment_error_iff ml w (by omega), ?_⟩
  intro h2
  refine ⟨?_, ?_, ?_⟩
  · apply except_unit_ok
    rw [checkTreatment_error_iff ml _ (by omega), h2]
    intro hneg
    apply hneg
    intro x
    simp only [List.mem_cons, List.not_mem_nil, or_false]
    omega
  · rw [checkTreatment_error_iff ml _ (by omega), h2]
    intro hall
    have := (hall 2).mp (by simp)
    omega
  · rw [checkTreatment_error_iff ml _ (by omega), h2]
    intro hall
    have := (hall 0).mpr (by omega)
    simp at this

/-- Witness for C5 on a concrete instance with `n_variants = 2`. -/
theorem claim_C5_witness :
    demoPlainLearner.checkTreatment [0, 0, 1, 1] = .ok ()
    ∧ (∃ e, demoPlainLearner.checkTreatment [0, 1, 2] = .error e)
    ∧ (∃ e, demoPlainLearner.checkTreatment [1, 1, 1] = .error e) :=
  (claim_C5_treatment_validation demoPlainLearner [] (by decide)).2 rfl

/-- C6: the `n_variants` check rejects non-integers and integers below two
with a `ValueError`; for integers above two it raises a
`NotImplementedError` exactly when the variant's multi-treatment flag is
false; `n_variants = 2` always passes. -/
theorem claim_C6_n_variants_check (V : Variant) (nVariants : PyVal) :
    ((∀ k : Int, ¬ (nVariants = PyVal.pyInt k)) →
      ∃ m, checkNVariants V nVariants = .error (.valueError m))
    ∧ (∀ k : Int, nVariants = PyVal.pyInt k → k < 2 →
        ∃ m, checkNVariants V nVariants = .error (.valueError m))
    ∧ (∀ k : Int, 2 < k → V.supportsMultiTreatment = false →
        ∃ m, checkNVariants V (PyVal.pyInt k) =
          .error (.notImplementedError m))
    ∧ (∀ k : Int, 2 < k → V.supportsMultiTreatment = true →
        checkNVariants V (PyVal.pyInt k) = .ok ())
    ∧ checkNVariants V (PyVal.pyInt 2) = .ok () := by
  refine ⟨?_, ?_, ?_, ?_, ?_⟩
  · intro h
    cases nVariants with
    | pyInt k => exact absurd rfl (h k)
    | obj n => exact ⟨_, rfl⟩
    | str s => exact ⟨_, rfl⟩
    | none => exact ⟨_, rfl⟩
    | list l => exact ⟨_, rfl⟩
    | dict d => exact ⟨_, rfl⟩
  · intro k hk hlt
    subst hk
    simp only [checkNVariants]
    rw [if_pos hlt]
    exact ⟨_, rfl⟩
  · intro k hk hmt
    simp only [checkNVariants]
    rw [if_neg (by omega), if_pos ⟨by omega, hmt⟩]
    exact ⟨_, rfl⟩
  · intro k hk hmt
    simp only [checkNVariants]
    rw [if_neg (by omega), if_neg (by simp [hmt])]
  · simp only [checkNVariants]
    rw [if_neg (by norm_num), if_neg (by norm_num)]

/-- Witness for C6 at concrete inputs: a string, `1`, and `3` against a
binary-only variant are rejected, `3` against a multi-treatment variant
and `2` pass. -/
theorem claim_C6_witness :
    (∃ m, checkNVariants demoBinaryVariant (PyVal.str "two") =
      .error (.valueError m))
    ∧ (∃ m, checkNVariants demoBinaryVariant (PyVal.pyInt 1) =
      .error (.valueError m))
    ∧ (∃ m, checkNVariants demoBinaryVariant (PyVal.pyInt 3) =
      .error (.notImplementedError m))
    ∧ checkNVariants demoVariant (PyVal.pyInt 3) = .ok ()
    ∧ checkNVariants demoBinaryVariant (PyVal.pyInt 2) = .ok () := by
  refine ⟨?_, ?_, ?_, ?_, ?_⟩
  · exact (claim_C6_n_variants_check demoBinaryVariant (PyVal.str "two")).1
      (by intro k h; exact PyVal.noConfusion h)
  · exact (claim_C6_n_variants_check demoBinaryVariant (PyVal.pyInt 1)).2.1
      1 rfl (by omega)
  · exact (claim_C6_n_variants_check demoBinaryVariant (PyVal.pyInt 3)).2.2.1
      3 (by omega) rfl
  · exact (claim_C6_n_variants_check demoVariant (PyVal.pyInt 3)).2.2.2.1
      3 (by omega) rfl
  · exact (claim_C6_n_variants_check demoBinaryVariant (PyVal.pyInt 2)).2.2.2.2

/-- C8 as written is refuted by the code: outcome validation only fires for
classification learners.  On a non-classification instance whose variant
does not support multi-class, an outcome with three distinct values is NOT
rejected. -/
theorem claim_C8_counterexample :
    demoPlainLearner.variant.supportsMultiClass = false
    ∧ 2 < ([0, 1, 2] : List Int).dedup.length
    ∧ demoPlainLearner.checkOutcome [0, 1, 2] = .ok () := by
  refine ⟨rfl, by decide, rfl⟩

/-- C8 (amended): outcome validation rejects exactly when the learner was
constructed for classification, the variant does not declare multi-class
support, and `y` has more than two distinct values; in particular it never
rejects when the variant declares multi-class support. -/
theorem claim_C8_outcome_check (ml : MetaLearner) (y : List Int) :
    (∃ e, ml.checkOutcome y = .error e) ↔
      (ml.config.isClassification = true
       ∧ ml.variant.supportsMultiClass = false
       ∧ 2 < y.dedup.length) := by
  unfold MetaLearner.checkOutcome
  by_cases h : ml.config.isClassification = true
      ∧ ml.variant.supportsMultiClass = false ∧ 2 < y.dedup.length
  · rw [if_pos h]
    exact ⟨fun _ => h, fun _ => ⟨_, rfl⟩⟩
  · rw [if_neg h]
    constructor
    · rintro ⟨e, he⟩
      exact Except.noConfusion he
    · intro hc
      exact absurd hc h

/-- C7: the variant factory maps exactly the five codes to five distinct
classes by exact string match and raises a `ValueError` naming any other
code.  It is a pure function by construction of the embedding. -/
theorem claim_C7_variant_factory :
    metalearnerFactory "S" = .ok .SLearner
    ∧ metalearnerFactory "T" = .ok .TLearner
    ∧ metalearnerFactory "X" = .ok .XLearner
    ∧ metalearnerFactory "R" = .ok .RLearner
    ∧ metalearnerFactory "DR" = .ok .DRLearner
    ∧ List.Pairwise (fun a b => ¬ (a = b))
        [MetaLearnerClass.SLearner, MetaLearnerClass.TLearner,
         MetaLearnerClass.XLearner, MetaLearnerClass.RLearner,
         MetaLearnerClass.DRLearner]
    ∧ (∀ code : String, code ∉ ["S", "T", "X", "R", "DR"] →
        metalearnerFactory code = .error (.valueError
          ("No MetaLearner implementation found for prefix " ++ code ++ "."))) := by
  refine ⟨rfl, rfl, rfl, rfl, rfl, by decide, ?_⟩
  intro code hc
  simp only [List.mem_cons, List.not_mem_nil, or_false, not_or] at hc
  obtain ⟨h1, h2, h3, h4, h5⟩ := hc
  simp [metalearnerFactory, h1, h2, h3, h4, h5]

/-- Witness for C7 at the concrete unrecognized code `"Z"`. -/
theorem claim_C7_witness :
    metalearnerFactory "Z" = .error (.valueError
      ("No MetaLearner implementation found for prefix " ++ "Z" ++ ".")) :=
  claim_C7_variant_factory.2.2.2.2.2.2 "Z" (by decide)

/-! ### Constructor and fit inversion lemmas -/

theorem dlookup_map_keys {α : Type} (keys : List Name) (f : Name → α)
    (n : Name) :
    dlookup (keys.map (fun k => (k, f k))) n =
      if n ∈ keys then some (f n) else Option.none := by
  induction keys with
  | nil => simp [dlookup]
  | cons k rest ih =>
    simp only [List.map_cons, dlookup]
    by_cases h : k = n
    · subst h
      simp
    · have h2 : ¬ n = k := fun hh => h hh.symm
      rw [if_neg h, ih]
      simp [List.mem_cons, h2]

theorem dlookup_buildModels (specs : List (Name × (Config → Nat)))
    (factory params : List (Name × PyVal)) (nFolds : Int) (rs : Option Int)
    (cfg : Config) (n : Name) (hn : n ∈ keysOf specs) :
    dlookup (buildModels specs factory params nFolds rs cfg) n =
      some ((List.range (((dlookup specs n).getD (fun _ => 0)) cfg)).map
        (fun _ =>
          { nFolds := nFolds
            estimatorFactory := (dlookup factory n).getD PyVal.none
            estimatorParams := (dlookup params n).getD PyVal.none
            randomState := rs
            fitCalls := [] })) := by
  unfold buildModels
  rw [dlookup_map_keys, if_pos ((mem_dedupKeys _ _).mpr hn)]

theorem dlookup_updateModels (models : List (Name × List CrossFitEstimator))
    (k : Name) (o : Nat) (e : CrossFitEstimator) (n : Name) :
    dlookup (updateModels models k o e) n =
      if n = k then (dlookup models n).map (fun l => l.set o e)
      else dlookup models n := by
  induction models with
  | nil =>
    simp [updateModels, dlookup]
  | cons p rest ih =>
    obtain ⟨k0, l0⟩ := p
    by_cases h0 : k0 = k
    · subst h0
      simp only [updateModels, if_pos rfl, dlookup]
      by_cases hn : k0 = n
      · subst hn
        simp
      · have h2 : ¬ n = k0 := fun hh => hn hh.symm
        simp [hn, h2]
    · simp only [updateModels, if_neg h0, dlookup, ih]
      by_cases hn : k0 = n
      · have h2 : ¬ n = k := fun hh => h0 (hn.trans hh)
        simp [hn, h2]
      · simp [hn]

theorem mkMetaLearner_ok_inversion (V : Variant) (nmf : PyVal) (isC : Bool)
    (nv : PyVal) (tmf pmf nmp tmp pmp fs : PyVal) (nFolds : Int)
    (rs : Option Int) (ml : MetaLearner)
    (h : mkMetaLearner V nmf isC nv tmf pmf nmp tmp pmp fs nFolds rs =
      .ok ml) :
    V.validateParamsOk = true
    ∧ PROPENSITY_MODEL ∉ keysOf V.treatmentSpecs
    ∧ dictHasKey nmf PROPENSITY_MODEL = false
    ∧ dictHasKey nmp PROPENSITY_MODEL = false
    ∧ ¬ (PROPENSITY_MODEL ∈ keysOf V.nuisanceSpecs ∧ pmf.isNone = true)
    ∧ checkNVariants V nv = .ok ()
    ∧ 0 < nFolds
    ∧ V.validateModelsOk = true
    ∧ ml = assembleLearner V nmf isC nv tmf pmf nmp tmp pmp fs nFolds rs := by
  unfold mkMetaLearner at h
  repeat' split at h
  all_goals try exact Except.noConfusion h
  refine ⟨?_, ?_, ?_, ?_, ?_, ?_, ?_, ?_, (Except.ok.inj h).symm⟩
  all_goals first
    | assumption
    | omega
    | simp_all

theorem fitNuisance_ok_inversion (m m2 : MetaLearner) (X : MatrixExpr)
    (y : Nat) (k : Name) (o : Nat) (fp : Option PyVal)
    (h : m.fitNuisance X y k o fp = .ok m2) :
    ∃ Xf l est, filterX m.config.featureSet X k = .ok Xf
      ∧ dlookup m.nuisanceModels k = some l
      ∧ l[o]? = some est
      ∧ m2 = { m with nuisanceModels :=
          updateModels m.nuisanceModels k o (est.fit Xf y fp) } := by
  unfold MetaLearner.fitNuisance at h
  split at h
  · exact Except.noConfusion h
  · rename_i Xf hXf
    split at h
    · exact Except.noConfusion h
    · rename_i l hl
      split at h
      · exact Except.noConfusion h
      · rename_i est hest
        exact ⟨Xf, l, est, hXf, hl, hest, (Except.ok.inj h).symm⟩

theorem fitTreatment_ok_inversion (m m2 : MetaLearner) (X : MatrixExpr)
    (y : Nat) (k : Name) (o : Nat) (fp : Option PyVal)
    (h : m.fitTreatment X y k o fp = .ok m2) :
    ∃ Xf l est, filterX m.config.featureSet X k = .ok Xf
      ∧ dlookup m.treatmentModels k = some l
      ∧ l[o]? = some est
      ∧ m2 = { m with treatmentModels :=
          updateModels m.treatmentModels k o (est.fit Xf y fp) } := by
  unfold MetaLearner.fitTreatment at h
  split at h
  · exact Except.noConfusion h
  · rename_i Xf hXf
    split at h
    · exact Except.noConfusion h
    · rename_i l hl
      split at h
      · exact Except.noConfusion h
      · rename_i est hest
        exact ⟨Xf, l, est, hXf, hl, hest, (Except.ok.inj h).symm⟩

theorem assembleLearner_variant (V : Variant) (nmf : PyVal) (isC : Bool)
    (nv : PyVal) (tmf pmf nmp tmp pmp fs : PyVal) (nFolds : Int)
    (rs : Option Int) :
    (assembleLearner V nmf isC nv tmf pmf nmp tmp pmp fs nFolds rs).variant =
      V := rfl

theorem assembleLearner_config (V : Variant) (nmf : PyVal) (isC : Bool)
    (nv : PyVal) (tmf pmf nmp tmp pmp fs : PyVal) (nFolds : Int)
    (rs : Option Int) :
    (assembleLearner V nmf isC nv tmf pmf nmp tmp pmp fs nFolds rs).config =
      mkConfig V nmf isC nv tmf pmf nmp tmp pmp fs nFolds rs := rfl

theorem assembleLearner_nuisanceModels (V : Variant) (nmf : PyVal)
    (isC : Bool) (nv : PyVal) (tmf pmf nmp tmp pmp fs : PyVal) (nFolds : Int)
    (rs : Option Int) :
    (assembleLearner V nmf isC nv tmf pmf nmp tmp pmp fs nFolds
        rs).nuisanceModels =
      buildModels V.nuisanceSpecs
        (mkConfig V nmf isC nv tmf pmf nmp tmp pmp fs nFolds
          rs).nuisanceModelFactory
        (mkConfig V nmf isC nv tmf pmf nmp tmp pmp fs nFolds
          rs).nuisanceModelParams
        nFolds rs (mkConfig V nmf isC nv tmf pmf nmp tmp pmp fs nFolds rs) :=
  rfl

theorem assembleLearner_treatmentModels (V : Variant) (nmf : PyVal)
    (isC : Bool) (nv : PyVal) (tmf pmf nmp tmp pmp fs : PyVal) (nFolds : Int)
    (rs : Option Int) :
    (assembleLearner V nmf isC nv tmf pmf nmp tmp pmp fs nFolds
        rs).treatmentModels =
      buildModels V.treatmentSpecs
        (mkConfig V nmf isC nv tmf pmf nmp tmp pmp fs nFolds
          rs).treatmentModelFactory
        (mkConfig V nmf isC nv tmf pmf nmp tmp pmp fs nFolds
          rs).treatmentModelParams
        nFolds rs (mkConfig V nmf isC nv tmf pmf nmp tmp pmp fs nFolds rs) :=
  rfl

/-! ### Claims about the constructor -/

/-- C3: construction fails with a `ValueError` whenever the reserved
propensity name appears in the variant's treatment registry, or as a key
of a dict passed as the raw nuisance-factory argument, or as a key of a
dict passed as the raw nuisance-params argument, or when the nuisance
registry declares the propensity kind but the propensity factory argument
is `None`; in every such case no meta-learner instance is produced (the
result is an error, not a learner). -/
theorem claim_C3_construction_rejections (V : Variant) (nmf : PyVal)
    (isC : Bool) (nv : PyVal) (tmf pmf nmp tmp pmp fs : PyVal)
    (nFolds : Int) (rs : Option Int)
    (h : PROPENSITY_MODEL ∈ keysOf V.treatmentSpecs
       ∨ dictHasKey nmf PROPENSITY_MODEL = true
       ∨ dictHasKey nmp PROPENSITY_MODEL = true
       ∨ (PROPENSITY_MODEL ∈ keysOf V.nuisanceSpecs ∧ pmf = PyVal.none)) :
    ∃ m, mkMetaLearner V nmf isC nv tmf pmf nmp tmp pmp fs nFolds rs =
      .error (.valueError m) := by
  by_cases h1 : V.validateParamsOk = false
  · refine ⟨"_validate_params rejected the configuration.", ?_⟩
    unfold mkMetaLearner
    rw [if_pos h1]
  by_cases h2 : PROPENSITY_MODEL ∈ keysOf V.treatmentSpecs
  · refine ⟨"propensity_model can't be used as a treatment model name", ?_⟩
    unfold mkMetaLearner
    rw [if_neg h1, if_pos h2]
  by_cases h3 : dictHasKey nmf PROPENSITY_MODEL = true
  · refine ⟨"Propensity model factory should be defined using propensity_model_factory and not nuisance_model_factory.", ?_⟩
    unfold mkMetaLearner
    rw [if_neg h1, if_neg h2, if_pos h3]
  by_cases h4 : dictHasKey nmp PROPENSITY_MODEL = true
  · refine ⟨"Propensity model params should be defined using propensity_model_params and not nuisance_model_params.", ?_⟩
    unfold mkMetaLearner
    rw [if_neg h1, if_neg h2, if_neg h3, if_pos h4]
  have h5 : PROPENSITY_MODEL ∈ keysOf V.nuisanceSpecs ∧ pmf.isNone = true := by
    rcases h with hA | hB | hC | ⟨hm, hp⟩
    · exact absurd hA h2
    · exact absurd hB h3
    · exact absurd hC h4
    · exact ⟨hm, by rw [hp]; rfl⟩
  refine ⟨"propensity_model_factory needs to be defined as the MetaLearner has a propensity model.", ?_⟩
  unfold mkMetaLearner
  rw [if_neg h1, if_neg h2, if_neg h3, if_neg h4, if_pos h5]

/-- Witness for C3: the demo variant declares a propensity nuisance kind
but the propensity factory argument is `None`, so construction errors. -/
theorem claim_C3_witness :
    ∃ m, mkMetaLearner demoVariant (PyVal.obj 1) false (PyVal.pyInt 2)
      (PyVal.obj 2) PyVal.none PyVal.none PyVal.none PyVal.none
      PyVal.none 10 Option.none = .error (.valueError m) :=
  claim_C3_construction_rejections demoVariant (PyVal.obj 1) false
    (PyVal.pyInt 2) (PyVal.obj 2) PyVal.none PyVal.none PyVal.none
    PyVal.none PyVal.none 10 Option.none
    (Or.inr (Or.inr (Or.inr ⟨by decide, rfl⟩)))

/-- C4: after successful construction, every declared nuisance (resp.
treatment) kind holds exactly `cardinality(self)` cross-fitting estimator
instances, evaluated at the constructed configuration; each instance
carries that kind's normalized factory and params, the validated fold
count and the random seed, and is freshly allocated (no fit calls);
moreover no fit operation ever changes the length of any per-kind
estimator list, so the counts are invariant over the instance lifetime. -/
theorem claim_C4_estimator_allocation (V : Variant) (nmf : PyVal)
    (isC : Bool) (nv : PyVal) (tmf pmf nmp tmp pmp fs : PyVal)
    (nFolds : Int) (rs : Option Int) (ml : MetaLearner)
    (hmk : mkMetaLearner V nmf isC nv tmf pmf nmp tmp pmp fs nFolds rs =
      .ok ml) :
    (∀ name ∈ keysOf V.nuisanceSpecs, ∃ l,
        dlookup ml.nuisanceModels name = some l
        ∧ l.length =
          ((dlookup V.nuisanceSpecs name).getD (fun _ => 0)) ml.config
        ∧ ∀ e ∈ l, e =
            { nFolds := nFolds
              estimatorFactory :=
                (dlookup ml.config.nuisanceModelFactory name).getD PyVal.none
              estimatorParams :=
                (dlookup ml.config.nuisanceModelParams name).getD PyVal.none
              randomState := rs
              fitCalls := [] })
    ∧ (∀ name ∈ keysOf V.treatmentSpecs, ∃ l,
        dlookup ml.treatmentModels name = some l
        ∧ l.length =
          ((dlookup V.treatmentSpecs name).getD (fun _ => 0)) ml.config
        ∧ ∀ e ∈ l, e =
            { nFolds := nFolds
              estimatorFactory :=
                (dlookup ml.config.treatmentModelFactory name).getD PyVal.none
              estimatorParams :=
                (dlookup ml.config.treatmentModelParams name).getD PyVal.none
              randomState := rs
              fitCalls := [] })
    ∧ (∀ (m m2 : MetaLearner) (X : MatrixExpr) (y : Nat) (k : Name) (o : Nat)
        (fp : Option PyVal), m.fitNuisance X y k o fp = .ok m2 →
        (∀ n, (dlookup m2.nuisanceModels n).map List.length =
          (dlookup m.nuisanceModels n).map List.length)
        ∧ m2.treatmentModels = m.treatmentModels)
    ∧ (∀ (m m2 : MetaLearner) (X : MatrixExpr) (y : Nat) (k : Name) (o : Nat)
        (fp : Option PyVal), m.fitTreatment X y k o fp = .ok m2 →
        (∀ n, (dlookup m2.treatmentModels n).map List.length =
          (dlookup m.treatmentModels n).map List.length)
        ∧ m2.nuisanceModels = m.nuisanceModels) := by
  obtain ⟨-, -, -, -, -, -, -, -, hml⟩ := mkMetaLearner_ok_inversion V nmf isC
    nv tmf pmf nmp tmp pmp fs nFolds rs ml hmk
  subst hml
  refine ⟨?_, ?_, ?_, ?_⟩
  · intro name hname
    rw [assembleLearner_nuisanceModels, assembleLearner_config,
      dlookup_buildModels _ _ _ _ _ _ _ hname]
    refine ⟨_, rfl, ?_, ?_⟩
    · simp
    · intro e he
      rw [List.mem_map] at he
      obtain ⟨i, -, hh⟩ := he
      exact hh.symm
  · intro name hname
    rw [assembleLearner_treatmentModels, assembleLearner_config,
      dlookup_buildModels _ _ _ _ _ _ _ hname]
    refine ⟨_, rfl, ?_, ?_⟩
    · simp
    · intro e he
      rw [List.mem_map] at he
      obtain ⟨i, -, hh⟩ := he
      exact hh.symm
  · intro m m2 X y k o fp hfit
    obtain ⟨Xf, l, est, -, -, -, hm2⟩ :=
      fitNuisance_ok_inversion m m2 X y k o fp hfit
    subst hm2
    refine ⟨?_, rfl⟩
    intro n
    show (dlookup (updateModels m.nuisanceModels k o (est.fit Xf y fp))
      n).map List.length = (dlookup m.nuisanceModels n).map List.length
    rw [dlookup_updateModels]
    by_cases hn : n = k
    · rw [if_pos hn]
      cases hdl : dlookup m.nuisanceModels n with
      | none => rfl
      | some l2 => simp [List.length_set]
    · rw [if_neg hn]
  · intro m m2 X y k o fp hfit
    obtain ⟨Xf, l, est, -, -, -, hm2⟩ :=
      fitTreatment_ok_inversion m m2 X y k o fp hfit
    subst hm2
    refine ⟨?_, rfl⟩
    intro n
    show (dlookup (updateModels m.treatmentModels k o (est.fit Xf y fp))
      n).map List.length = (dlookup m.treatmentModels n).map List.length
    rw [dlookup_updateModels]
    by_cases hn : n = k
    · rw [if_pos hn]
      cases hdl : dlookup m.treatmentModels n with
      | none => rfl
      | some l2 => simp [List.length_set]
    · rw [if_neg hn]

/-- Witness for C4 on the demo construction: the `outcome_model` kind holds
a list of exactly its declared cardinality. -/
theorem claim_C4_witness :
    ∃ l, dlookup demoLearner.nuisanceModels "outcome_model" = some l
      ∧ l.length = ((dlookup demoVariant.nuisanceSpecs "outcome_model").getD
          (fun _ => 0)) demoLearner.config := by
  obtain ⟨hn, -, -, -⟩ := claim_C4_estimator_allocation demoVariant
    (PyVal.obj 1) false (PyVal.pyInt 2) (PyVal.obj 2) (PyVal.obj 3)
    PyVal.none PyVal.none PyVal.none PyVal.none 10 Option.none
    demoLearner rfl
  obtain ⟨l, h1, h2, -⟩ := hn "outcome_model" (by decide)
  exact ⟨l, h1, h2⟩

/-! ### Feature-set filtering lemmas -/

theorem filterX_some_of_mem (d : List (Name × PyVal)) (X : MatrixExpr)
    (kind : Name) (hk : kind ∈ keysOf d) :
    ∃ f, dlookup d kind = some f
      ∧ filterX (some d) X kind = .ok (MatrixExpr.select X f) := by
  have hs := (mem_keysOf_iff_isSome d kind).mp hk
  cases hdl : dlookup d kind with
  | none =>
    rw [hdl] at hs
    exact absurd hs (by simp)
  | some f =>
    refine ⟨f, rfl, ?_⟩
    have hne : d.isEmpty = false := by
      cases d with
      | nil => simp [keysOf] at hk
      | cons p rest => rfl
    unfold filterX
    rw [if_pos (by simp [featureSetTruthy, hne]),
      show ((some d : Option (List (Name × PyVal))).getD []) = d from rfl,
      hdl]

theorem filterX_constructed (V : Variant) (nmf : PyVal) (isC : Bool)
    (nv : PyVal) (tmf pmf nmp tmp pmp fs : PyVal) (nFolds : Int)
    (rs : Option Int) (kind : Name)
    (hkin : kind ∈ dedupKeys (keysOf V.nuisanceSpecs)
          ∨ kind ∈ dedupKeys (keysOf V.treatmentSpecs)) (X : MatrixExpr) :
    ∃ Xf, filterX (assembleLearner V nmf isC nv tmf pmf nmp tmp pmp fs
        nFolds rs).config.featureSet X kind = .ok Xf
      ∧ (fs.isNone = true → Xf = X)
      ∧ (fs.isNone = false → ∃ d f,
          (assembleLearner V nmf isC nv tmf pmf nmp tmp pmp fs nFolds
            rs).config.featureSet = some d
          ∧ dlookup d kind = some f ∧ Xf = MatrixExpr.select X f) := by
  have hfsp : (assembleLearner V nmf isC nv tmf pmf nmp tmp pmp fs nFolds
      rs).config.featureSet =
      (if fs.isNone = true then Option.none
       else some (initializeModelDict fs
         (dedupKeys (dedupKeys (keysOf V.nuisanceSpecs) ++
           dedupKeys (keysOf V.treatmentSpecs))))) := rfl
  cases hfs : fs.isNone with
  | true =>
    rw [hfsp, if_pos hfs]
    exact ⟨X, rfl, fun _ => rfl, fun hc => Bool.noConfusion hc⟩
  | false =>
    rw [hfsp, if_neg (by simp [hfs])]
    have hkin2 : kind ∈ keysOf (initializeModelDict fs
        (dedupKeys (dedupKeys (keysOf V.nuisanceSpecs) ++
          dedupKeys (keysOf V.treatmentSpecs)))) := by
      rw [keysOf_initializeModelDict, mem_dedupKeys, List.mem_append]
      exact hkin
    obtain ⟨f, hdf, hfx⟩ := filterX_some_of_mem _ X kind hkin2
    exact ⟨MatrixExpr.select X f, hfx, fun hc => Bool.noConfusion hc,
      fun _ => ⟨_, f, rfl, hdf, rfl⟩⟩

/-- C9: for every constructed meta-learner and declared `(kind, ordinal)`,
`fit_nuisance` (resp. `fit_treatment`) succeeds and returns the updated
learner (the Python method mutates the targeted estimator in place and
returns `self`; the returned value is that learner); the `X` delegated to
the targeted estimator is `X` restricted to that kind's feature-set entry
when a feature-set configuration was supplied and the full `X` otherwise;
and the only state effect is on the single targeted `(kind, ordinal)`
estimator: the variant, every configuration field, the other model
mapping, every other kind's list, and every other ordinal of the targeted
list (via `List.set`) are unchanged. -/
theorem claim_C9_fit_dispatch_frame (V : Variant) (nmf : PyVal) (isC : Bool)
    (nv : PyVal) (tmf pmf nmp tmp pmp fs : PyVal) (nFolds : Int)
    (rs : Option Int) (ml : MetaLearner)
    (hmk : mkMetaLearner V nmf isC nv tmf pmf nmp tmp pmp fs nFolds rs =
      .ok ml)
    (X : MatrixExpr) (y : Nat) (kind : Name) (ord : Nat) (fp : Option PyVal) :
    (∀ l, dlookup ml.nuisanceModels kind = some l → ord < l.length →
      ∃ ml2 est Xf, ml.fitNuisance X y kind ord fp = .ok ml2
        ∧ l[ord]? = some est
        ∧ (fs.isNone = true → Xf = X)
        ∧ (fs.isNone = false → ∃ d f, ml.config.featureSet = some d
            ∧ dlookup d kind = some f ∧ Xf = MatrixExpr.select X f)
        ∧ ml2.variant = ml.variant
        ∧ ml2.config = ml.config
        ∧ ml2.treatmentModels = ml.treatmentModels
        ∧ (∀ n, ¬ n = kind →
            dlookup ml2.nuisanceModels n = dlookup ml.nuisanceModels n)
        ∧ dlookup ml2.nuisanceModels kind = some (l.set ord (est.fit Xf y fp)))
    ∧ (∀ l, dlookup ml.treatmentModels kind = some l → ord < l.length →
      ∃ ml2 est Xf, ml.fitTreatment X y kind ord fp = .ok ml2
        ∧ l[ord]? = some est
        ∧ (fs.isNone = true → Xf = X)
        ∧ (fs.isNone = false → ∃ d f, ml.config.featureSet = some d
            ∧ dlookup d kind = some f ∧ Xf = MatrixExpr.select X f)
        ∧ ml2.variant = ml.variant
        ∧ ml2.config = ml.config
        ∧ ml2.nuisanceModels = ml.nuisanceModels
        ∧ (∀ n, ¬ n = kind →
            dlookup ml2.treatmentModels n = dlookup ml.treatmentModels n)
        ∧ dlookup ml2.treatmentModels kind =
            some (l.set ord (est.fit Xf y fp))) := by
  obtain ⟨-, -, -, -, -, -, -, -, hml⟩ := mkMetaLearner_ok_inversion V nmf isC
    nv tmf pmf nmp tmp pmp fs nFolds rs ml hmk
  subst hml
  constructor
  · intro l hl hord
    have hkin : kind ∈ dedupKeys (keysOf V.nuisanceSpecs) := by
      by_contra hno
      rw [assembleLearner_nuisanceModels] at hl
      unfold buildModels at hl
      rw [dlookup_map_keys, if_neg hno] at hl
      exact Option.noConfusion hl
    obtain ⟨Xf, hXf, hXf1, hXf2⟩ := filterX_constructed V nmf isC nv tmf pmf
      nmp tmp pmp fs nFolds rs kind (Or.inl hkin) X
    cases hoe : l[ord]? with
    | none =>
      rw [List.getElem?_eq_none_iff] at hoe
      omega
    | some est =>
      have hfit : (assembleLearner V nmf isC nv tmf pmf nmp tmp pmp fs nFolds
          rs).fitNuisance X y kind ord fp =
          .ok { assembleLearner V nmf isC nv tmf pmf nmp tmp pmp fs nFolds rs
                with nuisanceModels := (updateModels (assembleLearner V nmf
                  isC nv tmf pmf nmp tmp pmp fs nFolds rs).nuisanceModels kind
                  ord (est.fit Xf y fp)) } := by
        unfold MetaLearner.fitNuisance
        simp only [hXf, hl, hoe]
      refine ⟨_, est, Xf, hfit, rfl, hXf1, hXf2, rfl, rfl, rfl, ?_, ?_⟩
      · intro n hn
        show dlookup (updateModels (assembleLearner V nmf isC nv tmf pmf nmp
          tmp pmp fs nFolds rs).nuisanceModels kind ord (est.fit Xf y fp)) n =
          dlookup (assembleLearner V nmf isC nv tmf pmf nmp tmp pmp fs nFolds
            rs).nuisanceModels n
        rw [dlookup_updateModels, if_neg hn]
      · show dlookup (updateModels (assembleLearner V nmf isC nv tmf pmf nmp
          tmp pmp fs nFolds rs).nuisanceModels kind ord (est.fit Xf y fp))
          kind = some (l.set ord (est.fit Xf y fp))
        rw [dlookup_updateModels, if_pos rfl, hl]
        rfl
  · intro l hl hord
    have hkin : kind ∈ dedupKeys (keysOf V.treatmentSpecs) := by
      by_contra hno
      rw [assembleLearner_treatmentModels] at hl
      unfold buildModels at hl
      rw [dlookup_map_keys, if_neg hno] at hl
      exact Option.noConfusion hl
    obtain ⟨Xf, hXf, hXf1, hXf2⟩ := filterX_constructed V nmf isC nv tmf pmf
      nmp tmp pmp fs nFolds rs kind (Or.inr hkin) X
    cases hoe : l[ord]? with
    | none =>
      rw [List.getElem?_eq_none_iff] at hoe
      omega
    | some est =>
      have hfit : (assembleLearner V nmf isC nv tmf pmf nmp tmp pmp fs nFolds
          rs).fitTreatment X y kind ord fp =
          .ok { assembleLearner V nmf isC nv tmf pmf nmp tmp pmp fs nFolds rs
                with treatmentModels := (updateModels (assembleLearner V nmf
                  isC nv tmf pmf nmp tmp pmp fs nFolds rs).treatmentModels
                  kind ord (est.fit Xf y fp)) } := by
        unfold MetaLearner.fitTreatment
        simp only [hXf, hl, hoe]
      refine ⟨_, est, Xf, hfit, rfl, hXf1, hXf2, rfl, rfl, rfl, ?_, ?_⟩
      · intro n hn
        show dlookup (updateModels (assembleLearner V nmf isC nv tmf pmf nmp
          tmp pmp fs nFolds rs).treatmentModels kind ord (est.fit Xf y fp))
          n = dlookup (assembleLearner V nmf isC nv tmf pmf nmp tmp pmp fs
            nFolds rs).treatmentModels n
        rw [dlookup_updateModels, if_neg hn]
      · show dlookup (updateModels (assembleLearner V nmf isC nv tmf pmf nmp
          tmp pmp fs nFolds rs).treatmentModels kind ord (est.fit Xf y fp))
          kind = some (l.set ord (est.fit Xf y fp))
        rw [dlookup_updateModels, if_pos rfl, hl]
        rfl

/-- Witness for C9 on the demo construction: fitting the `outcome_model`
nuisance estimator succeeds and leaves the configuration and the treatment
models untouched. -/
theorem claim_C9_witness :
    ∃ ml2, demoLearner.fitNuisance (MatrixExpr.raw 0) 5 "outcome_model" 0
        Option.none = .ok ml2
      ∧ ml2.config = demoLearner.config
      ∧ ml2.treatmentModels = demoLearner.treatmentModels := by
  obtain ⟨hn, -⟩ := claim_C9_fit_dispatch_frame demoVariant (PyVal.obj 1)
    false (PyVal.pyInt 2) (PyVal.obj 2) (PyVal.obj 3) PyVal.none PyVal.none
    PyVal.none PyVal.none 10 Option.none demoLearner rfl (MatrixExpr.raw 0)
    5 "outcome_model" 0 Option.none
  obtain ⟨ml2, est, Xf, h1, -, -, -, -, hcfg, htm, -, -⟩ := hn _ rfl (by decide)
  exact ⟨ml2, h1, hcfg, htm⟩

/-! ### Broadcast of mismatched dictionaries -/

theorem combine_broadcast_lookup (propensityValue : PyVal)
    (dn : List (Name × PyVal)) (names : List Name) (kind : Name)
    (hscope : kind ∈ (if PROPENSITY_MODEL ∈ names then
        names.filter (fun n => decide ¬(n = PROPENSITY_MODEL)) else names))
    (hmm : isMatchingDict (PyVal.dict dn)
      (if PROPENSITY_MODEL ∈ names then
        names.filter (fun n => decide ¬(n = PROPENSITY_MODEL)) else names) =
      false) :
    dlookup (combinePropensityAndNuisanceSpecs propensityValue
      (PyVal.dict dn) names) kind = some (PyVal.dict dn) := by
  unfold combinePropensityAndNuisanceSpecs
  by_cases hmem : PROPENSITY_MODEL ∈ names
  · rw [if_pos hmem] at hscope hmm ⊢
    have hkne : ¬ (kind = PROPENSITY_MODEL) := by
      have := (List.mem_filter.mp hscope).2
      simpa using this
    show dlookup (dictInsert (initializeModelDict (PyVal.dict dn)
      (names.filter (fun n => decide ¬(n = PROPENSITY_MODEL))))
      PROPENSITY_MODEL propensityValue) kind = some (PyVal.dict dn)
    rw [dlookup_dictInsert, if_neg hkne,
      initializeModelDict_of_not_matching _ _ hmm, dlookup_broadcastDict,
      if_pos hscope]
  · rw [if_neg hmem] at hscope hmm ⊢
    rw [initializeModelDict_of_not_matching _ _ hmm, dlookup_broadcastDict,
      if_pos hscope]

/-- C10 (implicit): passing a dict whose key set does not exactly equal the
declared kind names raises no error at construction; the whole dict is
instead broadcast as a scalar, so every kind in the corresponding
normalization scope receives the entire dict as its per-kind value — shown
for the nuisance-factory and nuisance-params channels (whose broadcast
scope is the non-propensity nuisance kinds), the treatment-factory and
treatment-params channels (all treatment kinds) and the feature-set
channel (all declared kinds). -/
theorem claim_C10_mismatched_dict_broadcast (V : Variant) (isC : Bool)
    (nv : PyVal) (dn dnp dt dtp df : List (Name × PyVal)) (pmf : PyVal)
    (nFolds : Int) (rs : Option Int)
    (hhooks1 : V.validateParamsOk = true)
    (hhooks2 : V.validateModelsOk = true)
    (htreg : PROPENSITY_MODEL ∉ keysOf V.treatmentSpecs)
    (hpm : ¬ (PROPENSITY_MODEL ∈ keysOf V.nuisanceSpecs ∧ pmf.isNone = true))
    (hnv : checkNVariants V nv = .ok ())
    (hnf : 0 < nFolds)
    (hdnk : PROPENSITY_MODEL ∉ keysOf dn)
    (hdnpk : PROPENSITY_MODEL ∉ keysOf dnp)
    (hdn : isMatchingDict (PyVal.dict dn) (nuisanceBroadcastScope V) = false)
    (hdnpm : isMatchingDict (PyVal.dict dnp)
      (nuisanceBroadcastScope V) = false)
    (hdt : isMatchingDict (PyVal.dict dt)
      (dedupKeys (keysOf V.treatmentSpecs)) = false)
    (hdtpm : isMatchingDict (PyVal.dict dtp)
      (dedupKeys (keysOf V.treatmentSpecs)) = false)
    (hdf : isMatchingDict (PyVal.dict df)
      (dedupKeys (dedupKeys (keysOf V.nuisanceSpecs) ++
        dedupKeys (keysOf V.treatmentSpecs))) = false) :
    ∃ ml, mkMetaLearner V (PyVal.dict dn) isC nv (PyVal.dict dt) pmf
        (PyVal.dict dnp) (PyVal.dict dtp) PyVal.none (PyVal.dict df) nFolds
        rs = .ok ml
      ∧ (∀ kind ∈ nuisanceBroadcastScope V,
          dlookup ml.config.nuisanceModelFactory kind = some (PyVal.dict dn))
      ∧ (∀ kind ∈ nuisanceBroadcastScope V,
          dlookup ml.config.nuisanceModelParams kind = some (PyVal.dict dnp))
      ∧ (∀ kind ∈ dedupKeys (keysOf V.treatmentSpecs),
          dlookup ml.config.treatmentModelFactory kind = some (PyVal.dict dt))
      ∧ (∀ kind ∈ dedupKeys (keysOf V.treatmentSpecs),
          dlookup ml.config.treatmentModelParams kind = some (PyVal.dict dtp))
      ∧ (∃ d, ml.config.featureSet = some d
          ∧ ∀ kind ∈ dedupKeys (dedupKeys (keysOf V.nuisanceSpecs) ++
              dedupKeys (keysOf V.treatmentSpecs)),
            dlookup d kind = some (PyVal.dict df)) := by
  refine ⟨assembleLearner V (PyVal.dict dn) isC nv (PyVal.dict dt) pmf
    (PyVal.dict dnp) (PyVal.dict dtp) PyVal.none (PyVal.dict df) nFolds rs,
    ?_, ?_, ?_, ?_, ?_, ?_⟩
  · unfold mkMetaLearner
    rw [if_neg (by simp [hhooks1]), if_neg htreg,
      if_neg (show ¬ (dictHasKey (PyVal.dict dn) PROPENSITY_MODEL = true)
        from by simp [dictHasKey, hdnk]),
      if_neg (show ¬ (dictHasKey (PyVal.dict dnp) PROPENSITY_MODEL = true)
        from by simp [dictHasKey, hdnpk]),
      if_neg hpm]
    simp only [hnv]
    rw [if_neg (by omega), if_neg (by simp [hhooks2])]
  · intro kind hkind
    show dlookup (combinePropensityAndNuisanceSpecs pmf (PyVal.dict dn)
      (dedupKeys (keysOf V.nuisanceSpecs))) kind = some (PyVal.dict dn)
    refine combine_broadcast_lookup pmf dn _ kind ?_ ?_
    · simpa [nuisanceBroadcastScope] using hkind
    · simpa [nuisanceBroadcastScope] using hdn
  · intro kind hkind
    show dlookup (combinePropensityAndNuisanceSpecs (PyVal.dict [])
      (PyVal.dict dnp) (dedupKeys (keysOf V.nuisanceSpecs))) kind =
      some (PyVal.dict dnp)
    refine combine_broadcast_lookup (PyVal.dict []) dnp _ kind ?_ ?_
    · simpa [nuisanceBroadcastScope] using hkind
    · simpa [nuisanceBroadcastScope] using hdnpm
  · intro kind hkind
    show dlookup (initializeModelDict (PyVal.dict dt)
      (dedupKeys (keysOf V.treatmentSpecs))) kind = some (PyVal.dict dt)
    rw [initializeModelDict_of_not_matching _ _ hdt, dlookup_broadcastDict,
      if_pos hkind]
  · intro kind hkind
    show dlookup (initializeModelDict (PyVal.dict dtp)
      (dedupKeys (keysOf V.treatmentSpecs))) kind = some (PyVal.dict dtp)
    rw [initializeModelDict_of_not_matching _ _ hdtpm, dlookup_broadcastDict,
      if_pos hkind]
  · refine ⟨initializeModelDict (PyVal.dict df)
      (dedupKeys (dedupKeys (keysOf V.nuisanceSpecs) ++
        dedupKeys (keysOf V.treatmentSpecs))), rfl, ?_⟩
    intro kind hkind
    rw [initializeModelDict_of_not_matching _ _ hdf, dlookup_broadcastDict,
      if_pos hkind]

/-- Witness for C10 on the demo variant with misspelled keys in all five
dict channels: construction succeeds, the treatment kind receives the
whole misspelled factory dict and the whole misspelled params dict, and
the outcome nuisance kind receives the whole misspelled params dict. -/
theorem claim_C10_witness :
    ∃ ml, mkMetaLearner demoVariant
        (PyVal.dict [("misspelled", PyVal.obj 5)]) false (PyVal.pyInt 2)
        (PyVal.dict [("wrong", PyVal.obj 6)]) (PyVal.obj 3)
        (PyVal.dict [("typo", PyVal.obj 8)])
        (PyVal.dict [("typo2", PyVal.obj 9)]) PyVal.none
        (PyVal.dict [("oops", PyVal.obj 7)]) 10 Option.none = .ok ml
      ∧ dlookup ml.config.treatmentModelFactory "treatment_effect_model" =
        some (PyVal.dict [("wrong", PyVal.obj 6)])
      ∧ dlookup ml.config.nuisanceModelParams "outcome_model" =
        some (PyVal.dict [("typo", PyVal.obj 8)])
      ∧ dlookup ml.config.treatmentModelParams "treatment_effect_model" =
        some (PyVal.dict [("typo2", PyVal.obj 9)]) := by
  obtain ⟨ml, h1, -, h3, h4, h5, -⟩ := claim_C10_mismatched_dict_broadcast
    demoVariant false (PyVal.pyInt 2) [("misspelled", PyVal.obj 5)]
    [("typo", PyVal.obj 8)] [("wrong", PyVal.obj 6)]
    [("typo2", PyVal.obj 9)] [("oops", PyVal.obj 7)] (PyVal.obj 3) 10
    Option.none rfl rfl (by decide) (by decide) rfl (by omega) (by decide)
    (by decide) (by decide) (by decide) (by decide) (by decide) (by decide)
  exact ⟨ml, h1, h4 "treatment_effect_model" (by decide),
    h3 "outcome_model" (by decide),
    h5 "treatment_effect_model" (by decide)⟩
